import Mathlib

/-!
# Verification of the Nobel_Man portfolio dashboard state logic

Shallow embedding of the state-management logic of the admin dashboard and
project-detail views (`src/components/AdminDashboard.tsx`,
`src/components/ProjectDetail.tsx`): chat-log pairing, inbox filtering /
sorting / pagination, drag-to-reorder synchronisation, polling
reconciliation, like de-duplication, comment submission, logo / message
mutations and the comments-carousel animation tick.

Conventions of the embedding:
* ISO timestamp strings (`createdAt`) are modelled as integer milliseconds
  since the Unix epoch; `new Date(x).getTime()` is the identity on this
  representation, and `toISOString().split('T')[0]` is implemented as
  `toISODateStr` via the standard civil-from-days calendar algorithm
  (UTC day number, then Gregorian year/month/day, zero-padded).
* JavaScript string truthiness (`s || t`, `!s`) is modelled by `jsStrOr` /
  `jsIdOr`: `undefined` becomes `none` and the empty string is falsy.
* `JSON.stringify(a) !== JSON.stringify(b)` on plain data is modelled as
  structural inequality (`≠` with `DecidableEq`).
* Asynchronous remote calls are modelled by passing the call's outcome as an
  explicit parameter (`Option result` / `Bool` success flag); whether a call
  was issued, and with which argument, is returned alongside the new state.
* JS `Array.prototype.sort` is stable (ES2019), and is modelled by
  `List.insertionSort` with the corresponding non-strict key order, which is
  likewise stable.
-/

/-- JS `a || b` on an optional string: `a` wins when present and non-empty
(the empty string is falsy). -/
def jsStrOr (a : Option String) (b : Option String) : Option String :=
  match a with
  | some s => if s = "" then b else some s
  | none => b

/-- JS truthiness of an optional string as a guard value: a present, non-empty
string; `""` and `undefined` both collapse to `none`. -/
def jsIdOr (a : Option String) : Option String :=
  jsStrOr a none

/-- `String.prototype.trim()`: strip leading and trailing whitespace
(computable character-list implementation so that concrete instances
evaluate inside the kernel). -/
def jsTrim (s : String) : String :=
  String.mk (((s.data.dropWhile Char.isWhitespace).reverse.dropWhile
    Char.isWhitespace).reverse)

/-- Gregorian date (year, month, day) from a day number relative to
1970-01-01 (civil-from-days); all intermediate divisions act on non-negative
values, where floor and truncating division agree, so Lean's `Int` floor
division matches the reference algorithm. -/
def civilFromDays (z0 : Int) : Int × Int × Int :=
  let z := z0 + 719468
  let era := z / 146097
  let doe := z - era * 146097
  let yoe := (doe - doe / 1460 + doe / 36524 - doe / 146096) / 365
  let y := yoe + era * 400
  let doy := doe - (365 * yoe + yoe / 4 - yoe / 100)
  let mp := (5 * doy + 2) / 153
  let d := doy - (153 * mp + 2) / 5 + 1
  let m := mp + (if mp < 10 then 3 else -9)
  (y + (if m ≤ 2 then 1 else 0), m, d)

/-- Two-digit zero padding, as in ISO month/day fields. -/
def padTo2 (n : Int) : String :=
  if n < 10 then "0" ++ toString n else toString n

/-- Four-digit zero padding, as in the ISO year field. -/
def padTo4 (n : Int) : String :=
  if n < 10 then "000" ++ toString n
  else if n < 100 then "00" ++ toString n
  else if n < 1000 then "0" ++ toString n
  else toString n

/-- `new Date(ms).toISOString().split('T')[0]`: the UTC calendar date of a
millisecond timestamp, rendered `YYYY-MM-DD`. -/
def toISODateStr (ms : Int) : String :=
  let c := civilFromDays (ms / 86400000)
  padTo4 c.1 ++ "-" ++ padTo2 c.2.1 ++ "-" ++ padTo2 c.2.2

/-! ## Data model (`src/types.ts` admin variant, §3 of the design) -/

/-- Role of a chat-log entry (`'user' | 'model'`). -/
inductive Role where
  | user
  | model
deriving DecidableEq, Repr

/-- A chat-log entry as used by `AdminDashboard` (`ChatLog` in the data
model): Mongo id, role, text, creation timestamp (ms) and read flag (an
absent flag is modelled as `false`, matching the `!!read` coercions in the
source). -/
structure ChatLog where
  _id : Option String
  role : Role
  text : String
  createdAt : Int
  read : Bool
deriving DecidableEq, Repr

/-- A comment on a project: server id, client id, author, text, creation
timestamp and read flag. -/
structure Comment where
  _id : Option String
  id : Option String
  author : String
  text : String
  createdAt : Int
  read : Bool
deriving DecidableEq, Repr

/-- A project as handled by the admin dashboard: display fields, gallery,
likes counter, comments and display order (optional fields as in the
TypeScript interface). -/
structure Project where
  id : String
  title : String
  category : String
  image : String
  description : String
  role : Option String
  year : Option String
  client : Option String
  gallery : Option (List String)
  likes : Option Nat
  comments : Option (List Comment)
  order : Option Nat
deriving DecidableEq, Repr

/-- A contact-form message. -/
structure ContactMessage where
  _id : Option String
  id : Option String
  name : String
  email : String
  message : String
  createdAt : Int
  read : Bool
deriving DecidableEq, Repr

/-- A client logo entry. -/
structure ClientLogo where
  _id : Option String
  id : Option String
  name : String
  url : String
deriving DecidableEq, Repr

/-- Modelled from the spec: the `ProfileData` interface itself is not among
the provided sources (the bundled `types.ts` is the public-site variant), so
this is the flat record of marketing copy and link fields described in §3 of
the design (bio, hero image, social links, treat-modal configuration),
edited wholesale and fetched as a whole record. -/
structure ProfileData where
  name : String
  role : String
  bio : String
  heroImage : String
  instagram : String
  linkedin : String
  website : String
  showTreatModal : Bool
deriving DecidableEq, Repr

/-! ## Chat-log pairing (`pairedChatLogs`, AdminDashboard lines 364-388) -/

/-- A displayed user/model chat pair produced by `pairedChatLogs`. The `id`
field keeps the user (or model) message's Mongo id when present; the
`Date.now().toString() + Math.random()` fallback generates a fresh random
display key and is modelled as `none`. -/
structure ChatPair where
  id : Option String
  userMsg : Option ChatLog := none
  modelMsg : Option ChatLog := none
  createdAt : Int
  read : Bool
deriving DecidableEq, Repr

/-- The in-progress pair held in `currentPair` during the scan
(`{ userMsg?: ChatLog, modelMsg?: ChatLog }`). -/
structure PendingPair where
  userMsg : Option ChatLog := none
  modelMsg : Option ChatLog := none
deriving DecidableEq, Repr

/-- The user-only pair flushed when a second `user` entry arrives
(`pairs.push({ id: u._id || ..., userMsg: u, createdAt: u.createdAt, read: !!u.read })`). -/
def userOnlyPair (u : ChatLog) : ChatPair :=
  { id := jsIdOr u._id, userMsg := some u, createdAt := u.createdAt, read := u.read }

/-- The completed pair pushed when a `model` entry closes an open pair. -/
def fullPair (u log : ChatLog) : ChatPair :=
  { id := jsIdOr u._id, userMsg := some u, modelMsg := some log,
    createdAt := u.createdAt, read := u.read }

/-- The pair pushed for a `model` entry with no open pair; note `read: true`. -/
def modelOnlyPair (log : ChatLog) : ChatPair :=
  { id := jsIdOr log._id, modelMsg := some log, createdAt := log.createdAt, read := true }

/-- One iteration of the `sorted.forEach((log) => ...)` scan body of
`pairedChatLogs`, acting on the accumulated `pairs` array and `currentPair`. -/
def pairStep (pairs : List ChatPair) (cur : Option PendingPair) (log : ChatLog) :
    List ChatPair × Option PendingPair :=
  match log.role with
  | Role.user =>
      let flushed :=
        match cur with
        | some p =>
            match p.userMsg, p.modelMsg with
            | some u, none => pairs ++ [userOnlyPair u]
            | _, _ => pairs
        | none => pairs
      (flushed, some { userMsg := some log })
  | Role.model =>
      match cur with
      | some p =>
          match p.userMsg, p.modelMsg with
          | some u, none => (pairs ++ [fullPair u log], none)
          | _, _ => (pairs ++ [modelOnlyPair log], cur)
      | none => (pairs ++ [modelOnlyPair log], none)

/-- Ascending-by-time sort used by `pairedChatLogs`:
`[...chatLogs].sort((a, b) => new Date(a.createdAt).getTime() - new Date(b.createdAt).getTime())`. -/
def sortChatAsc (logs : List ChatLog) : List ChatLog :=
  List.insertionSort (fun a b => a.createdAt ≤ b.createdAt) logs

/-- The trailing `if (currentPair) pairs.push({...})` after the scan; `now`
stands for the wall-clock fallbacks (`new Date().toISOString()`), which fire
only when `currentPair.userMsg` is absent. -/
def flushTrailing (now : Int) (acc : List ChatPair × Option PendingPair) : List ChatPair :=
  match acc.2 with
  | none => acc.1
  | some p =>
      acc.1 ++ [{ id := jsIdOr (p.userMsg.bind ChatLog._id),
                  userMsg := p.userMsg, modelMsg := p.modelMsg,
                  createdAt := (p.userMsg.map ChatLog.createdAt).getD now,
                  read := (p.userMsg.map ChatLog.read).getD false }]

/-- `pairedChatLogs` (AdminDashboard lines 364-388): sort the chat logs in
ascending time order, scan them pairing each user entry with the next model
entry, then flush any still-open pair. -/
def pairedChatLogs (now : Int) (chatLogs : List ChatLog) : List ChatPair :=
  flushTrailing now
    ((sortChatAsc chatLogs).foldl (fun acc log => pairStep acc.1 acc.2 log) ([], none))

/-! ## Inbox filtering, sorting, pagination (AdminDashboard lines 256-418) -/

/-- The inbox tab (`'contact' | 'chat'`). -/
inductive InboxTab where
  | contact
  | chat
deriving DecidableEq, Repr

/-- An element of the heterogeneous inbox array (`any[]` in the source):
either a contact-form message or a paired chat turn. -/
inductive InboxItem where
  | contact (m : ContactMessage)
  | chat (p : ChatPair)
deriving DecidableEq, Repr

/-- The `createdAt` field read off an inbox item by the filter and sort. -/
def InboxItem.createdAt : InboxItem → Int
  | InboxItem.contact m => m.createdAt
  | InboxItem.chat p => p.createdAt

/-- The newest-first order used by
`data.sort((a, b) => new Date(b.createdAt).getTime() - new Date(a.createdAt).getTime())`. -/
def newerFirst (a b : InboxItem) : Prop :=
  InboxItem.createdAt b ≤ InboxItem.createdAt a

instance : DecidableRel newerFirst := fun a b =>
  inferInstanceAs (Decidable (InboxItem.createdAt b ≤ InboxItem.createdAt a))

instance : IsTotal InboxItem newerFirst :=
  ⟨fun a b => le_total (InboxItem.createdAt b) (InboxItem.createdAt a)⟩

instance : IsTrans InboxItem newerFirst :=
  ⟨fun _ _ _ h1 h2 => le_trans h2 h1⟩

/-- `inboxTab === 'contact' ? messages : pairedChatLogs`: the active tab's
stream as the heterogeneous `data` array. -/
def inboxBaseData (inboxTab : InboxTab) (messages : List ContactMessage)
    (chatPairs : List ChatPair) : List InboxItem :=
  match inboxTab with
  | InboxTab.contact => messages.map InboxItem.contact
  | InboxTab.chat => chatPairs.map InboxItem.chat

/-- `processedInboxData` (AdminDashboard lines 390-400): pick the active
tab's stream, apply the exact-date filter when one is set (JS truthiness:
the empty string means "no filter"), then sort newest-first. -/
def processedInboxData (inboxTab : InboxTab) (messages : List ContactMessage)
    (chatPairs : List ChatPair) (dateFilter : String) : List InboxItem :=
  let data := inboxBaseData inboxTab messages chatPairs
  let data :=
    if dateFilter ≠ "" then
      data.filter (fun item => toISODateStr (InboxItem.createdAt item) = dateFilter)
    else data
  List.insertionSort newerFirst data

/-- `const ITEMS_PER_PAGE = 5;` (AdminDashboard line 263). -/
def ITEMS_PER_PAGE : Nat := 5

/-- `paginatedInboxData` (AdminDashboard lines 402-406):
`processedInboxData.slice((inboxPage - 1) * ITEMS_PER_PAGE, start + ITEMS_PER_PAGE)`. -/
def paginatedInboxData {α : Type} (inboxPage : Nat) (processed : List α) : List α :=
  let start := (inboxPage - 1) * ITEMS_PER_PAGE
  (processed.drop start).take ITEMS_PER_PAGE

/-- The `useEffect(() => { setInboxPage(1); }, [inboxTab, dateFilter])`
(AdminDashboard lines 326-328): after a render in which either dependency
changed, the page index is set to 1; otherwise it keeps its value. -/
def inboxPageResetEffect (prevTab newTab : InboxTab) (prevFilter newFilter : String)
    (page : Nat) : Nat :=
  if newTab ≠ prevTab ∨ newFilter ≠ prevFilter then 1 else page

/-! ## Reorderable list controller (AdminDashboard lines 219-228, 454-455) -/

/-- The reorder controller's state: `localProjects` and `isDragging`. -/
structure ReorderState where
  localProjects : List Project
  isDragging : Bool
deriving DecidableEq, Repr

/-- The `useEffect` syncing `localProjects` with the `projects` prop
(AdminDashboard lines 222-228): bail out while dragging; otherwise replace
`localProjects` when `JSON.stringify` finds the prop different. -/
def syncLocalProjects (projects : List Project) (s : ReorderState) : ReorderState :=
  if s.isDragging then s
  else if projects ≠ s.localProjects then { s with localProjects := projects }
  else s

/-- `handleDragStart` (AdminDashboard line 454). -/
def handleDragStart (s : ReorderState) : ReorderState :=
  { s with isDragging := true }

/-- `handleDragEnd` (AdminDashboard line 455): clear the drag flag and emit
the current local order through `onReorderProjects` (the second component). -/
def handleDragEnd (s : ReorderState) : ReorderState × List Project :=
  ({ s with isDragging := false }, s.localProjects)

/-! ## Polling reconciliation (AdminDashboard lines 296-324) -/

/-- The dashboard's active tab. -/
inductive AdminTab where
  | overview
  | list
  | form
  | logos
  | profile
  | inbox
deriving DecidableEq, Repr

/-- The slice of dashboard state touched by the 4-second polling interval. -/
structure DashboardState where
  activeTab : AdminTab
  messages : List ContactMessage
  chatLogs : List ChatLog
  profileData : ProfileData
deriving DecidableEq, Repr

/-- One successful polling cycle (AdminDashboard lines 296-324): replace
`messages` and `chatLogs` with the fetched values; when the profile tab is
not active, additionally fetch the profile and, if data came back, apply it
(`setProfileData(prev => ({...prev, ...pData}))` — spreading a full
`ProfileData` record over the previous one replaces every field). When the
profile tab is active the profile is not fetched at all. -/
def pollTick (s : DashboardState) (msgs : List ContactMessage) (logs : List ChatLog)
    (pData : Option ProfileData) : DashboardState :=
  let s1 := { s with messages := msgs, chatLogs := logs }
  if s.activeTab ≠ AdminTab.profile then
    match pData with
    | some p => { s1 with profileData := p }
    | none => s1
  else s1

/-! ## Project detail: likes, comments, carousel (`ProjectDetail.tsx`) -/

/-- Like-related state of `ProjectDetail`: the cached project, the `likes`
counter, the `isLiked` flag and the `localStorage` flag
`liked_${project.id}` (present or not) for this project in this browser. -/
structure LikeState where
  project : Project
  likes : Nat
  isLiked : Bool
  storedLikeFlag : Bool
deriving DecidableEq, Repr

/-- The mount effect (ProjectDetail lines 45-48): if the browser-local
`liked_${project.id}` flag is present, set `isLiked`. -/
def likedFlagEffect (s : LikeState) : LikeState :=
  if s.storedLikeFlag then { s with isLiked := true } else s

/-- The like button carries `disabled={isLiked}` (ProjectDetail line 261). -/
def likeButtonDisabled (s : LikeState) : Bool :=
  s.isLiked

/-- `handleLike` (ProjectDetail lines 86-103): bail out when already liked;
otherwise increment the counter, set `isLiked`, persist the browser-local
flag, update the cached project, and invoke the remote `likeProject` call
(the returned `Bool` records whether that call was issued). -/
def handleLike (s : LikeState) : LikeState × Bool :=
  if s.isLiked then (s, false)
  else
    let newLikes := s.likes + 1
    ({ s with isLiked := true, likes := newLikes, storedLikeFlag := true,
              project := { s.project with likes := some newLikes } }, true)

/-- Submission status of the comment form (`'idle' | 'loading' | 'success'`). -/
inductive SubmitStatus where
  | idle
  | loading
  | success
deriving DecidableEq, Repr

/-- Comment-form state of `ProjectDetail`. -/
structure CommentFormState where
  project : Project
  comments : List Comment
  newCommentAuthor : String
  newCommentText : String
  submitStatus : SubmitStatus
deriving DecidableEq, Repr

/-- Observable outcome of one `handleCommentSubmit` run: the component state
rendered at the instant `projectService.addComment` is invoked, the
`(author, text)` arguments of that call (`none` when the guard returned
early), the state after the handler settles, and whether `alert` fired. -/
structure CommentSubmitResult where
  stateAtRemoteCall : CommentFormState
  remoteCallArgs : Option (String × String)
  finalState : CommentFormState
  alerted : Bool
deriving DecidableEq, Repr

/-- `handleCommentSubmit` (ProjectDetail lines 105-145): guard on blank
author/text; set status to `loading`; build `tempComment` and `newComments`
(note: the source computes these but issues no `setComments` before the
remote call); on success adopt the server's project and comments
(`updatedProjectServer.comments || newComments` — a present, even empty,
array wins) and clear both inputs; on failure alert and return to `idle`
leaving comments and inputs untouched. `now` stands for `Date.now()`. -/
def handleCommentSubmit (now : Int) (s : CommentFormState) (outcome : Option Project) :
    CommentSubmitResult :=
  if jsTrim s.newCommentAuthor = "" ∨ jsTrim s.newCommentText = "" then
    ⟨s, none, s, false⟩
  else
    let s1 : CommentFormState := { s with submitStatus := SubmitStatus.loading }
    let tempComment : Comment :=
      { _id := none, id := some (toString now), author := s.newCommentAuthor,
        text := s.newCommentText, createdAt := now, read := false }
    let newComments := s.comments ++ [tempComment]
    match outcome with
    | some updatedProjectServer =>
        ⟨s1, some (s.newCommentAuthor, s.newCommentText),
         { s1 with comments := updatedProjectServer.comments.getD newComments,
                   project := updatedProjectServer,
                   newCommentAuthor := "", newCommentText := "",
                   submitStatus := SubmitStatus.success },
         false⟩
    | none =>
        ⟨s1, some (s.newCommentAuthor, s.newCommentText),
         { s1 with submitStatus := SubmitStatus.idle }, true⟩

/-- One animation-frame tick of the comments carousel (ProjectDetail lines
51-69): when neither dragging nor hovering, advance `scrollLeft` by 1 and
reset it to 0 once it reaches the midpoint
(`container.scrollLeft >= container.scrollWidth / 2`, i.e. with integral
offsets `2 * scrollLeft ≥ scrollWidth`); otherwise leave it unchanged. -/
def carouselTick (isDragging isHovering : Bool) (scrollWidth scrollLeft : Nat) : Nat :=
  if !isDragging && !isHovering then
    let advanced := scrollLeft + 1
    if 2 * advanced ≥ scrollWidth then 0 else advanced
  else scrollLeft

/-! ## Mark-chat-read and logo / message mutations (AdminDashboard) -/

/-- `handleMarkChatRead` (AdminDashboard lines 466-471): bail out when the
pair is already read or its user message has no truthy `_id`
(`if (!chatPair.userMsg?._id) return;`); otherwise optimistically flip the
`read` flag on every chat log whose `_id` matches and invoke
`markChatLogRead` with that id (the `Option String` component). -/
def handleMarkChatRead (chatPair : ChatPair) (chatLogs : List ChatLog) :
    List ChatLog × Option String :=
  if chatPair.read then (chatLogs, none)
  else
    match jsIdOr (chatPair.userMsg.bind ChatLog._id) with
    | none => (chatLogs, none)
    | some uid =>
        (chatLogs.map (fun l => if l._id = some uid then { l with read := true } else l),
         some uid)

/-- Logo-panel state of the admin dashboard. -/
structure LogoPanelState where
  logos : List ClientLogo
  newLogoName : String
  newLogoUrl : String
  isAddingLogo : Bool
  logoToDelete : Option String
  selectedLogoIds : List String
  isBulkDeletingLogos : Bool
  showBulkDeleteConfirm : Bool
deriving DecidableEq, Repr

/-- `handleAddLogo` (AdminDashboard lines 493-498): guard on a blank URL;
on success prepend the server's logo and clear the inputs; on failure alert
(`Bool` component) leaving `logos` untouched; `finally` clears the busy
flag either way. -/
def handleAddLogo (s : LogoPanelState) (outcome : Option ClientLogo) :
    LogoPanelState × Bool :=
  if s.newLogoUrl = "" then (s, false)
  else
    let s1 := { s with isAddingLogo := true }
    match outcome with
    | some addedLogo =>
        ({ s1 with logos := addedLogo :: s1.logos, newLogoName := "", newLogoUrl := "",
                   isAddingLogo := false }, false)
    | none => ({ s1 with isAddingLogo := false }, true)

/-- `confirmDeleteLogo` (AdminDashboard lines 499-502): guard on a truthy
`logoToDelete`; on success drop the matching logos and clear the pending id;
on failure alert leaving state untouched. -/
def confirmDeleteLogo (s : LogoPanelState) (success : Bool) : LogoPanelState × Bool :=
  match jsIdOr s.logoToDelete with
  | none => (s, false)
  | some lid =>
      if success then
        ({ s with logos := s.logos.filter (fun l => l._id ≠ some lid),
                  logoToDelete := none }, false)
      else (s, true)

/-- The `l._id || l.id || ''` key under which a logo is selected for bulk
deletion. -/
def logoKey (l : ClientLogo) : String :=
  (jsStrOr l._id (jsStrOr l.id (some ""))).getD ""

/-- `confirmBulkDeleteLogos` (AdminDashboard lines 505-509): set the busy
flag and hide the confirm dialog; on success drop every selected logo and
clear the selection; on failure alert leaving `logos` and the selection
untouched; `finally` clears the busy flag. -/
def confirmBulkDeleteLogos (s : LogoPanelState) (success : Bool) :
    LogoPanelState × Bool :=
  let s1 := { s with isBulkDeletingLogos := true, showBulkDeleteConfirm := false }
  if success then
    ({ s1 with logos := s1.logos.filter (fun l => !(s.selectedLogoIds.contains (logoKey l))),
               selectedLogoIds := [], isBulkDeletingLogos := false }, false)
  else ({ s1 with isBulkDeletingLogos := false }, true)

/-- Observable outcome of `confirmDeleteMessage`. -/
structure DeleteMessageResult where
  messages : List ContactMessage
  messageToDelete : Option String
  alerted : Bool
deriving DecidableEq, Repr

/-- `confirmDeleteMessage` (AdminDashboard lines 522-525): guard on a truthy
`messageToDelete`; on success drop the message whose `_id || id` matches and
clear the pending id; on failure alert leaving the list untouched. -/
def confirmDeleteMessage (messages : List ContactMessage) (messageToDelete : Option String)
    (success : Bool) : DeleteMessageResult :=
  match jsIdOr messageToDelete with
  | none => ⟨messages, messageToDelete, false⟩
  | some mid =>
      if success then
        ⟨messages.filter (fun m => jsStrOr m._id m.id ≠ some mid), none, false⟩
      else ⟨messages, messageToDelete, true⟩

/-! ## Sample data used by witnesses -/

/-- A concrete project used to instantiate witnesses. -/
def sampleProject : Project :=
  { id := "p1", title := "Site", category := "Web", image := "img",
    description := "d", role := none, year := none, client := none,
    gallery := none, likes := some 0, comments := some [], order := some 0 }

/-! ## C2: reorder suppression and drag-end emission -/

/-- C2: while `isDragging` is true an incoming differing `projects` prop
leaves the controller state (hence `localProjects`) unchanged; while it is
false a differing prop replaces `localProjects` wholesale; `handleDragEnd`
clears the drag flag and emits the full current `localProjects` sequence
through the reorder callback. -/
theorem reorder_controller_contract (projects : List Project) (s : ReorderState) :
    (s.isDragging = true → projects ≠ s.localProjects →
        syncLocalProjects projects s = s) ∧
    (s.isDragging = false → projects ≠ s.localProjects →
        syncLocalProjects projects s = { s with localProjects := projects }) ∧
    ((handleDragEnd s).1.isDragging = false ∧ (handleDragEnd s).2 = s.localProjects) := by
  refine ⟨fun hd _ => ?_, fun hd hne => ?_, by simp [handleDragEnd], by simp [handleDragEnd]⟩
  · simp [syncLocalProjects, hd]
  · simp [syncLocalProjects, hd, hne]

/-- Witness for C2 at a concrete state: dragging suppresses the update,
non-dragging adopts it, drag end emits the local order. -/
theorem reorder_controller_contract_witness :
    (ReorderState.mk [] true).isDragging = true ∧
    ([sampleProject] ≠ (ReorderState.mk [] true).localProjects) ∧
    ((ReorderState.mk [] true).isDragging = true → [sampleProject] ≠ [] →
        syncLocalProjects [sampleProject] (ReorderState.mk [] true) = ReorderState.mk [] true) ∧
    ((ReorderState.mk [] true).isDragging = false → [sampleProject] ≠ [] →
        syncLocalProjects [sampleProject] (ReorderState.mk [] true)
          = { ReorderState.mk [] true with localProjects := [sampleProject] }) ∧
    ((handleDragEnd (ReorderState.mk [] true)).1.isDragging = false ∧
        (handleDragEnd (ReorderState.mk [] true)).2 = []) :=
  ⟨by decide, by decide, (reorder_controller_contract [sampleProject] (ReorderState.mk [] true)).1,
   (reorder_controller_contract [sampleProject] (ReorderState.mk [] true)).2.1,
   (reorder_controller_contract [sampleProject] (ReorderState.mk [] true)).2.2⟩

/-! ## C5: like de-duplication -/

/-- C5: invoking `handleLike` twice calls the remote operation at most once:
the second invocation changes nothing locally (in particular the `likes`
counter) and issues no remote call; a stored browser-local flag disables the
button and makes `handleLike` skip the call; after any first invocation the
button is disabled. -/
theorem handleLike_dedup (s : LikeState) :
    ((handleLike (handleLike s).1).1 = (handleLike s).1 ∧
        (handleLike (handleLike s).1).2 = false) ∧
    ((handleLike (handleLike s).1).1.likes = (handleLike s).1.likes) ∧
    (s.storedLikeFlag = true →
        handleLike (likedFlagEffect s) = (likedFlagEffect s, false) ∧
        likeButtonDisabled (likedFlagEffect s) = true) ∧
    (s.isLiked = true → handleLike s = (s, false)) ∧
    ((handleLike s).1.isLiked = true ∧ likeButtonDisabled (handleLike s).1 = true) := by
  have h3 : s.storedLikeFlag = true →
      handleLike (likedFlagEffect s) = (likedFlagEffect s, false) ∧
      likeButtonDisabled (likedFlagEffect s) = true := fun hf => by
    simp [likedFlagEffect, hf, handleLike, likeButtonDisabled]
  refine ⟨⟨?_, ?_⟩, ?_, h3, fun hl => by simp [handleLike, hl], ?_, ?_⟩ <;>
    by_cases h : s.isLiked <;> simp [handleLike, likeButtonDisabled, h]

/-- Witness for C5 at a fresh state: the first call likes once, the second
is a no-op with no remote call. -/
theorem handleLike_dedup_witness :
    (LikeState.mk sampleProject 0 false true).storedLikeFlag = true ∧
    ((handleLike (handleLike (LikeState.mk sampleProject 0 false false)).1).1
        = (handleLike (LikeState.mk sampleProject 0 false false)).1 ∧
      (handleLike (handleLike (LikeState.mk sampleProject 0 false false)).1).2 = false) ∧
    (handleLike (likedFlagEffect (LikeState.mk sampleProject 0 false true))
        = (likedFlagEffect (LikeState.mk sampleProject 0 false true), false) ∧
      likeButtonDisabled (likedFlagEffect (LikeState.mk sampleProject 0 false true)) = true) :=
  ⟨by decide, (handleLike_dedup (LikeState.mk sampleProject 0 false false)).1,
   (handleLike_dedup (LikeState.mk sampleProject 0 false true)).2.2.1 (by decide)⟩

/-! ## C6: inbox pagination -/

/-- C6: with the fixed page size 5 and a 12-item processed list, page 1 is
exactly the first five items and page 3 exactly the last two; the page index
resets to 1 whenever the inbox tab or the date filter changes. -/
theorem inbox_pagination {α : Type} (l : List α) (h : l.length = 12) :
    ITEMS_PER_PAGE = 5 ∧
    (paginatedInboxData 1 l = l.take 5 ∧ (paginatedInboxData 1 l).length = 5) ∧
    (paginatedInboxData 3 l = l.drop 10 ∧ (paginatedInboxData 3 l).length = 2) ∧
    (∀ (pt nt : InboxTab) (pf nf : String) (page : Nat),
        nt ≠ pt ∨ nf ≠ pf → inboxPageResetEffect pt nt pf nf page = 1) := by
  refine ⟨rfl, ⟨?_, ?_⟩, ⟨?_, ?_⟩, ?_⟩
  · simp [paginatedInboxData, ITEMS_PER_PAGE]
  · simp [paginatedInboxData, ITEMS_PER_PAGE, h]
  · simp only [paginatedInboxData, ITEMS_PER_PAGE]
    exact List.take_of_length_le (by simp [h])
  · simp [paginatedInboxData, ITEMS_PER_PAGE, h]
  · intro pt nt pf nf page hch
    simp [inboxPageResetEffect, hch]

/-- Witness for C6 on a concrete 12-item list. -/
theorem inbox_pagination_witness :
    ([0, 1, 2, 3, 4, 5, 6, 7, 8, 9, 10, 11] : List Nat).length = 12 ∧
    (ITEMS_PER_PAGE = 5 ∧
      (paginatedInboxData 1 [0, 1, 2, 3, 4, 5, 6, 7, 8, 9, 10, 11]
          = ([0, 1, 2, 3, 4, 5, 6, 7, 8, 9, 10, 11] : List Nat).take 5 ∧
        (paginatedInboxData 1 ([0, 1, 2, 3, 4, 5, 6, 7, 8, 9, 10, 11] : List Nat)).length = 5) ∧
      (paginatedInboxData 3 [0, 1, 2, 3, 4, 5, 6, 7, 8, 9, 10, 11]
          = ([0, 1, 2, 3, 4, 5, 6, 7, 8, 9, 10, 11] : List Nat).drop 10 ∧
        (paginatedInboxData 3 ([0, 1, 2, 3, 4, 5, 6, 7, 8, 9, 10, 11] : List Nat)).length = 2) ∧
      (∀ (pt nt : InboxTab) (pf nf : String) (page : Nat),
          nt ≠ pt ∨ nf ≠ pf → inboxPageResetEffect pt nt pf nf page = 1)) :=
  ⟨by decide, inbox_pagination [0, 1, 2, 3, 4, 5, 6, 7, 8, 9, 10, 11] (by decide)⟩

/-! ## C9: carousel animation tick -/

/-- C9: on a tick with no pointer dragging or hovering the offset advances
by one, except that on reaching or passing the midpoint of the doubled
content's scrollable width it is reset to zero on that very tick; while
dragging or hovering the tick leaves the offset unchanged. -/
theorem carouselTick_spec (drag hover : Bool) (w off : Nat) :
    (drag = false → hover = false → 2 * (off + 1) < w →
        carouselTick drag hover w off = off + 1) ∧
    (drag = false → hover = false → w ≤ 2 * (off + 1) →
        carouselTick drag hover w off = 0) ∧
    (drag = true ∨ hover = true → carouselTick drag hover w off = off) := by
  refine ⟨fun hd hh hlt => ?_, fun hd hh hge => ?_, fun hor => ?_⟩
  · simp [carouselTick, hd, hh, Nat.not_le.mpr hlt]
  · simp [carouselTick, hd, hh, hge]
  · rcases hor with h | h <;> simp [carouselTick, h]

/-- Witness for C9: with a doubled width of 10, offset 3 advances to 4,
offset 4 resets to 0, and a hovering tick leaves offset 4 unchanged. -/
theorem carouselTick_spec_witness :
    (2 * (3 + 1) < 10 ∧ carouselTick false false 10 3 = 3 + 1) ∧
    (10 ≤ 2 * (4 + 1) ∧ carouselTick false false 10 4 = 0) ∧
    carouselTick false true 10 4 = 4 :=
  ⟨⟨by decide, (carouselTick_spec false false 10 3).1 rfl rfl (by decide)⟩,
   ⟨by decide, (carouselTick_spec false false 10 4).2.1 rfl rfl (by decide)⟩,
   (carouselTick_spec false true 10 4).2.2 (Or.inr rfl)⟩

/-! ## C3: comment submission -/

/-- Counterexample to C3 as stated: at a concrete submission the remote
`addComment` call is issued (with the typed author and text), yet the
comment list rendered at the instant of that call is still the previous,
empty list — the new comment has not been applied to local state before the
remote operation, contradicting the claimed optimistic-apply step. -/
theorem handleCommentSubmit_not_optimistic :
    (handleCommentSubmit 0
        (CommentFormState.mk sampleProject [] "Ann" "Hi" SubmitStatus.idle)
        none).remoteCallArgs = some ("Ann", "Hi") ∧
    ¬ ((handleCommentSubmit 0
        (CommentFormState.mk sampleProject [] "Ann" "Hi" SubmitStatus.idle)
        none).stateAtRemoteCall.comments ≠ []) := by
  constructor
  · decide
  · decide

/-- C3 amended: the new comment is computed synchronously but the rendered
comment list is *not* updated before the remote `addComment` call (the list
at the instant of the call still equals the prior comments, only the submit
status having moved to `loading`); on success, comments and project are
replaced with the server's returned updated project (the locally computed
list is used only if the server omits a comments array) and both inputs are
cleared; on failure a blocking alert is shown and the inputs and the comment
list are left intact for retry. -/
theorem handleCommentSubmit_contract (now : Int) (s : CommentFormState)
    (outcome : Option Project)
    (hA : jsTrim s.newCommentAuthor ≠ "") (hT : jsTrim s.newCommentText ≠ "") :
    ((handleCommentSubmit now s outcome).remoteCallArgs
        = some (s.newCommentAuthor, s.newCommentText)) ∧
    ((handleCommentSubmit now s outcome).stateAtRemoteCall.comments = s.comments) ∧
    ((handleCommentSubmit now s outcome).stateAtRemoteCall
        = { s with submitStatus := SubmitStatus.loading }) ∧
    (∀ p, outcome = some p →
        (handleCommentSubmit now s outcome).finalState.project = p ∧
        (handleCommentSubmit now s outcome).finalState.comments
          = p.comments.getD (s.comments ++
              [{ _id := none, id := some (toString now), author := s.newCommentAuthor,
                 text := s.newCommentText, createdAt := now, read := false }]) ∧
        (handleCommentSubmit now s outcome).finalState.newCommentAuthor = "" ∧
        (handleCommentSubmit now s outcome).finalState.newCommentText = "" ∧
        (handleCommentSubmit now s outcome).alerted = false) ∧
    (outcome = none →
        (handleCommentSubmit now s outcome).alerted = true ∧
        (handleCommentSubmit now s outcome).finalState.newCommentAuthor
          = s.newCommentAuthor ∧
        (handleCommentSubmit now s outcome).finalState.newCommentText
          = s.newCommentText ∧
        (handleCommentSubmit now s outcome).finalState.comments = s.comments ∧
        (handleCommentSubmit now s outcome).finalState.submitStatus
          = SubmitStatus.idle) := by
  refine ⟨?_, ?_, ?_, ?_, ?_⟩
  · cases outcome <;> simp [handleCommentSubmit, hA, hT]
  · cases outcome <;> simp [handleCommentSubmit, hA, hT]
  · cases outcome <;> simp [handleCommentSubmit, hA, hT]
  · intro q hq
    subst hq
    refine ⟨?_, ?_, ?_, ?_, ?_⟩ <;> simp [handleCommentSubmit, hA, hT]
  · intro hn
    subst hn
    refine ⟨?_, ?_, ?_, ?_, ?_⟩ <;> simp [handleCommentSubmit, hA, hT]

/-- Witness for the amended C3 at a concrete failing submission: the call
was issued with the typed inputs, no comment was applied beforehand, the
alert fired and the inputs survived. -/
theorem handleCommentSubmit_contract_witness :
    (handleCommentSubmit 7
        (CommentFormState.mk sampleProject [] "Ann" "Hi" SubmitStatus.idle)
        none).remoteCallArgs = some ("Ann", "Hi") ∧
    (handleCommentSubmit 7
        (CommentFormState.mk sampleProject [] "Ann" "Hi" SubmitStatus.idle)
        none).stateAtRemoteCall.comments = [] ∧
    (handleCommentSubmit 7
        (CommentFormState.mk sampleProject [] "Ann" "Hi" SubmitStatus.idle)
        none).alerted = true ∧
    (handleCommentSubmit 7
        (CommentFormState.mk sampleProject [] "Ann" "Hi" SubmitStatus.idle)
        none).finalState.newCommentAuthor = "Ann" ∧
    (handleCommentSubmit 7
        (CommentFormState.mk sampleProject [] "Ann" "Hi" SubmitStatus.idle)
        none).finalState.newCommentText = "Hi" := by
  have h := handleCommentSubmit_contract 7
    (CommentFormState.mk sampleProject [] "Ann" "Hi" SubmitStatus.idle)
    none (by decide) (by decide)
  exact ⟨h.1, h.2.1, (h.2.2.2.2 rfl).1, (h.2.2.2.2 rfl).2.1, (h.2.2.2.2 rfl).2.2.1⟩

/-! ## C4: logo and message mutation failure behaviour -/

/-- Counterexample to C4 as stated: a failed `handleAddLogo` on an empty
logo list surfaces the alert but leaves the list empty — the attempted
addition is *not* applied to the in-memory state after the failure. -/
theorem logoMutation_failure_counterexample :
    (handleAddLogo
        (LogoPanelState.mk [] "Acme" "https://a/logo.png" false none [] false false)
        none).2 = true ∧
    (handleAddLogo
        (LogoPanelState.mk [] "Acme" "https://a/logo.png" false none [] false false)
        none).1.logos = [] := by
  constructor <;> rfl

/-- C4 amended: for every logo mutation (add, delete, bulk delete) and for
message deletion, a remote failure surfaces a blocking alert and leaves the
local logos/messages lists unchanged — the attempted change is applied only
after remote success, so after a failure local state does not reflect it. -/
theorem logoMessage_failure_contract (s : LogoPanelState)
    (msgs : List ContactMessage) (mid : Option String) :
    (s.newLogoUrl ≠ "" →
        (handleAddLogo s none).2 = true ∧
        (handleAddLogo s none).1.logos = s.logos ∧
        (handleAddLogo s none).1.newLogoName = s.newLogoName ∧
        (handleAddLogo s none).1.newLogoUrl = s.newLogoUrl) ∧
    (∀ lid, jsIdOr s.logoToDelete = some lid →
        (confirmDeleteLogo s false).2 = true ∧
        (confirmDeleteLogo s false).1.logos = s.logos) ∧
    ((confirmBulkDeleteLogos s false).2 = true ∧
        (confirmBulkDeleteLogos s false).1.logos = s.logos ∧
        (confirmBulkDeleteLogos s false).1.selectedLogoIds = s.selectedLogoIds) ∧
    (∀ m, jsIdOr mid = some m →
        (confirmDeleteMessage msgs mid false).alerted = true ∧
        (confirmDeleteMessage msgs mid false).messages = msgs) := by
  refine ⟨fun hu => ?_, fun lid hl => ?_, ?_, fun m hm => ?_⟩
  · simp [handleAddLogo, hu]
  · simp [confirmDeleteLogo, hl]
  · simp [confirmBulkDeleteLogos]
  · simp [confirmDeleteMessage, hm]

/-- Witness for the amended C4 at a concrete state with one logo, a pending
deletion and a pending message deletion. -/
theorem logoMessage_failure_contract_witness :
    ((LogoPanelState.mk [ClientLogo.mk (some "l1") none "Acme" "u"] "N" "https://x"
        false (some "l1") ["l1"] false true).newLogoUrl ≠ "") ∧
    (jsIdOr (some "l1") = some "l1") ∧
    (jsIdOr (some "m1") = some "m1") ∧
    ((confirmDeleteLogo (LogoPanelState.mk [ClientLogo.mk (some "l1") none "Acme" "u"]
        "N" "https://x" false (some "l1") ["l1"] false true) false).2 = true ∧
      (confirmDeleteLogo (LogoPanelState.mk [ClientLogo.mk (some "l1") none "Acme" "u"]
        "N" "https://x" false (some "l1") ["l1"] false true) false).1.logos
        = [ClientLogo.mk (some "l1") none "Acme" "u"]) ∧
    ((confirmDeleteMessage [ContactMessage.mk (some "m1") none "Bo" "e" "m" 0 false]
        (some "m1") false).alerted = true ∧
      (confirmDeleteMessage [ContactMessage.mk (some "m1") none "Bo" "e" "m" 0 false]
        (some "m1") false).messages
        = [ContactMessage.mk (some "m1") none "Bo" "e" "m" 0 false]) :=
  ⟨by decide, by decide, by decide,
    (logoMessage_failure_contract
      (LogoPanelState.mk [ClientLogo.mk (some "l1") none "Acme" "u"] "N" "https://x"
        false (some "l1") ["l1"] false true)
      [ContactMessage.mk (some "m1") none "Bo" "e" "m" 0 false]
      (some "m1")).2.1 "l1" (by decide),
    (logoMessage_failure_contract
      (LogoPanelState.mk [ClientLogo.mk (some "l1") none "Acme" "u"] "N" "https://x"
        false (some "l1") ["l1"] false true)
      [ContactMessage.mk (some "m1") none "Bo" "e" "m" 0 false]
      (some "m1")).2.2.2 "m1" (by decide)⟩

/-! ## C7: remote-wins reconciliation -/

/-- C7: a polling cycle that returns data replaces the corresponding local
state wholesale — `messages` and `chatLogs` always, and `profileData`
whenever the profile fetch runs (any tab but the profile tab) and returns a
record; the sole exception is the project order, which ignores an incoming
prop while a drag gesture is active and adopts a differing prop once it is
not. -/
theorem remote_wins_reconciliation (s : DashboardState) (msgs : List ContactMessage)
    (logs : List ChatLog) (p : ProfileData) (pd : Option ProfileData)
    (projects : List Project) (rs : ReorderState) :
    ((pollTick s msgs logs pd).messages = msgs) ∧
    ((pollTick s msgs logs pd).chatLogs = logs) ∧
    (s.activeTab ≠ AdminTab.profile →
        (pollTick s msgs logs (some p)).profileData = p) ∧
    (rs.isDragging = true → syncLocalProjects projects rs = rs) ∧
    (rs.isDragging = false → projects ≠ rs.localProjects →
        (syncLocalProjects projects rs).localProjects = projects) := by
  refine ⟨?_, ?_, fun ht => ?_, fun hd => ?_, fun hd hne => ?_⟩
  · by_cases ht : s.activeTab = AdminTab.profile <;> cases pd <;>
      simp [pollTick, ht]
  · by_cases ht : s.activeTab = AdminTab.profile <;> cases pd <;>
      simp [pollTick, ht]
  · simp [pollTick, ht]
  · simp [syncLocalProjects, hd]
  · simp [syncLocalProjects, hd, hne]

/-- Witness for C7 on concrete states: one polling cycle on the overview tab
adopts the fetched messages, chat logs and profile; the drag-time sync is
suppressed and the idle sync adopts a differing prop. -/
theorem remote_wins_reconciliation_witness :
    ((DashboardState.mk AdminTab.overview [] [] (ProfileData.mk "n" "r" "b" "h" "i" "l" "w" false)).activeTab
        ≠ AdminTab.profile) ∧
    ((pollTick (DashboardState.mk AdminTab.overview [] []
          (ProfileData.mk "n" "r" "b" "h" "i" "l" "w" false))
        [ContactMessage.mk (some "m1") none "Bo" "e" "msg" 0 false]
        [ChatLog.mk (some "c1") Role.user "hey" 0 false]
        (some (ProfileData.mk "n2" "r" "b" "h" "i" "l" "w" true))).messages
      = [ContactMessage.mk (some "m1") none "Bo" "e" "msg" 0 false]) ∧
    ((pollTick (DashboardState.mk AdminTab.overview [] []
          (ProfileData.mk "n" "r" "b" "h" "i" "l" "w" false))
        [ContactMessage.mk (some "m1") none "Bo" "e" "msg" 0 false]
        [ChatLog.mk (some "c1") Role.user "hey" 0 false]
        (some (ProfileData.mk "n2" "r" "b" "h" "i" "l" "w" true))).chatLogs
      = [ChatLog.mk (some "c1") Role.user "hey" 0 false]) ∧
    ((pollTick (DashboardState.mk AdminTab.overview [] []
          (ProfileData.mk "n" "r" "b" "h" "i" "l" "w" false))
        [ContactMessage.mk (some "m1") none "Bo" "e" "msg" 0 false]
        [ChatLog.mk (some "c1") Role.user "hey" 0 false]
        (some (ProfileData.mk "n2" "r" "b" "h" "i" "l" "w" true))).profileData
      = ProfileData.mk "n2" "r" "b" "h" "i" "l" "w" true) ∧
    (syncLocalProjects [sampleProject] (ReorderState.mk [] true)
      = ReorderState.mk [] true) ∧
    ((syncLocalProjects [sampleProject] (ReorderState.mk [] false)).localProjects
      = [sampleProject]) := by
  have h := remote_wins_reconciliation
    (DashboardState.mk AdminTab.overview [] [] (ProfileData.mk "n" "r" "b" "h" "i" "l" "w" false))
    [ContactMessage.mk (some "m1") none "Bo" "e" "msg" 0 false]
    [ChatLog.mk (some "c1") Role.user "hey" 0 false]
    (ProfileData.mk "n2" "r" "b" "h" "i" "l" "w" true)
    (some (ProfileData.mk "n2" "r" "b" "h" "i" "l" "w" true))
    [sampleProject] (ReorderState.mk [] true)
  have h2 := remote_wins_reconciliation
    (DashboardState.mk AdminTab.overview [] [] (ProfileData.mk "n" "r" "b" "h" "i" "l" "w" false))
    [ContactMessage.mk (some "m1") none "Bo" "e" "msg" 0 false]
    [ChatLog.mk (some "c1") Role.user "hey" 0 false]
    (ProfileData.mk "n2" "r" "b" "h" "i" "l" "w" true)
    (some (ProfileData.mk "n2" "r" "b" "h" "i" "l" "w" true))
    [sampleProject] (ReorderState.mk [] false)
  exact ⟨by decide, h.1, h.2.1, h.2.2.1 (by decide), h.2.2.2.1 rfl,
    h2.2.2.2.2 rfl (by decide)⟩

/-! ## C1: chat-log pairing scenarios -/

/-- C1: for time-ordered inputs, `pairedChatLogs` realises the scan
contract on the two specified sequences: for `user, user, model` the first
user entry is flushed alone (no model side) and the second user entry pairs
with the model entry; for `user, model, user, model` exactly two fully
populated pairs result, each carrying its user message's timestamp. -/
theorem pairedChatLogs_scenarios
    (now t1 t2 t3 t4 : Int) (i1 i2 i3 i4 : Option String)
    (x1 x2 x3 x4 : String) (r1 r2 r3 r4 : Bool)
    (h12 : t1 ≤ t2) (h23 : t2 ≤ t3) (h34 : t3 ≤ t4) :
    (pairedChatLogs now
        [ChatLog.mk i1 Role.user x1 t1 r1, ChatLog.mk i2 Role.user x2 t2 r2,
         ChatLog.mk i3 Role.model x3 t3 r3] =
      [ChatPair.mk (jsIdOr i1) (some (ChatLog.mk i1 Role.user x1 t1 r1)) none t1 r1,
       ChatPair.mk (jsIdOr i2) (some (ChatLog.mk i2 Role.user x2 t2 r2))
         (some (ChatLog.mk i3 Role.model x3 t3 r3)) t2 r2]) ∧
    (pairedChatLogs now
        [ChatLog.mk i1 Role.user x1 t1 r1, ChatLog.mk i2 Role.model x2 t2 r2,
         ChatLog.mk i3 Role.user x3 t3 r3, ChatLog.mk i4 Role.model x4 t4 r4] =
      [ChatPair.mk (jsIdOr i1) (some (ChatLog.mk i1 Role.user x1 t1 r1))
         (some (ChatLog.mk i2 Role.model x2 t2 r2)) t1 r1,
       ChatPair.mk (jsIdOr i3) (some (ChatLog.mk i3 Role.user x3 t3 r3))
         (some (ChatLog.mk i4 Role.model x4 t4 r4)) t3 r3]) := by
  constructor
  · simp [pairedChatLogs, sortChatAsc, List.insertionSort, List.orderedInsert,
      h12, h23, flushTrailing, pairStep, userOnlyPair, fullPair, modelOnlyPair]
  · simp [pairedChatLogs, sortChatAsc, List.insertionSort, List.orderedInsert,
      h12, h23, h34, flushTrailing, pairStep, userOnlyPair, fullPair, modelOnlyPair]

/-- Witness for C1 at concrete ids and times 1 < 2 < 3 < 4. -/
theorem pairedChatLogs_scenarios_witness :
    ((1 : Int) ≤ 2 ∧ (2 : Int) ≤ 3 ∧ (3 : Int) ≤ 4) ∧
    (pairedChatLogs 0
        [ChatLog.mk (some "a") Role.user "q1" 1 false,
         ChatLog.mk (some "b") Role.user "q2" 2 false,
         ChatLog.mk (some "c") Role.model "r2" 3 false] =
      [ChatPair.mk (jsIdOr (some "a")) (some (ChatLog.mk (some "a") Role.user "q1" 1 false))
         none 1 false,
       ChatPair.mk (jsIdOr (some "b")) (some (ChatLog.mk (some "b") Role.user "q2" 2 false))
         (some (ChatLog.mk (some "c") Role.model "r2" 3 false)) 2 false]) ∧
    (pairedChatLogs 0
        [ChatLog.mk (some "a") Role.user "q1" 1 false,
         ChatLog.mk (some "b") Role.model "r1" 2 false,
         ChatLog.mk (some "c") Role.user "q2" 3 false,
         ChatLog.mk (some "d") Role.model "r2" 4 false] =
      [ChatPair.mk (jsIdOr (some "a")) (some (ChatLog.mk (some "a") Role.user "q1" 1 false))
         (some (ChatLog.mk (some "b") Role.model "r1" 2 false)) 1 false,
       ChatPair.mk (jsIdOr (some "c")) (some (ChatLog.mk (some "c") Role.user "q2" 3 false))
         (some (ChatLog.mk (some "d") Role.model "r2" 4 false)) 3 false]) := by
  have h := pairedChatLogs_scenarios 0 1 2 3 4 (some "a") (some "b") (some "c") (some "d")
    "q1" "q2" "r2" "r2" false false false false (by decide) (by decide) (by decide)
  have h2 := pairedChatLogs_scenarios 0 1 2 3 4 (some "a") (some "b") (some "c") (some "d")
    "q1" "r1" "q2" "r2" false false false false (by decide) (by decide) (by decide)
  exact ⟨⟨by decide, by decide, by decide⟩, h.1, h2.2⟩

/-! ## C8: exact-date filter -/

/-- C8: with a non-empty date filter, an item is in the processed inbox list
for the active tab exactly when it is in that tab's stream and its creation
date, rendered in the `YYYY-MM-DD` form used for comparison, equals the
filter string; the surviving items are sorted newest-first by creation
timestamp. -/
theorem processedInboxData_dateFilter (inboxTab : InboxTab)
    (messages : List ContactMessage) (chatPairs : List ChatPair)
    (dateFilter : String) (hdf : dateFilter ≠ "") :
    (∀ item, item ∈ processedInboxData inboxTab messages chatPairs dateFilter ↔
        item ∈ inboxBaseData inboxTab messages chatPairs ∧
          toISODateStr (InboxItem.createdAt item) = dateFilter) ∧
    List.Sorted newerFirst (processedInboxData inboxTab messages chatPairs dateFilter) := by
  constructor
  · intro item
    simp [processedInboxData, hdf, List.mem_filter]
  · simp only [processedInboxData, hdf, if_pos]
    exact List.sorted_insertionSort newerFirst _

/-- Witness for C8: three contact messages on three distinct calendar days
(2024-05-14/15/16 UTC); filtering by `2024-05-15` keeps exactly the middle
one, and the characterisation theorem applies at that input. -/
theorem processedInboxData_dateFilter_witness :
    ("2024-05-15" ≠ "") ∧
    (processedInboxData InboxTab.contact
        [ContactMessage.mk (some "m1") none "A" "a@x" "one" 1715650000000 false,
         ContactMessage.mk (some "m2") none "B" "b@x" "two" 1715740000000 false,
         ContactMessage.mk (some "m3") none "C" "c@x" "three" 1715860000000 false]
        [] "2024-05-15"
      = [InboxItem.contact
          (ContactMessage.mk (some "m2") none "B" "b@x" "two" 1715740000000 false)]) ∧
    ((InboxItem.contact
          (ContactMessage.mk (some "m2") none "B" "b@x" "two" 1715740000000 false))
        ∈ processedInboxData InboxTab.contact
          [ContactMessage.mk (some "m1") none "A" "a@x" "one" 1715650000000 false,
           ContactMessage.mk (some "m2") none "B" "b@x" "two" 1715740000000 false,
           ContactMessage.mk (some "m3") none "C" "c@x" "three" 1715860000000 false]
          [] "2024-05-15" ↔
      (InboxItem.contact
          (ContactMessage.mk (some "m2") none "B" "b@x" "two" 1715740000000 false))
        ∈ inboxBaseData InboxTab.contact
          [ContactMessage.mk (some "m1") none "A" "a@x" "one" 1715650000000 false,
           ContactMessage.mk (some "m2") none "B" "b@x" "two" 1715740000000 false,
           ContactMessage.mk (some "m3") none "C" "c@x" "three" 1715860000000 false] [] ∧
        toISODateStr (InboxItem.createdAt (InboxItem.contact
          (ContactMessage.mk (some "m2") none "B" "b@x" "two" 1715740000000 false)))
          = "2024-05-15") := by
  refine ⟨by decide, by decide, ?_⟩
  exact (processedInboxData_dateFilter InboxTab.contact
    [ContactMessage.mk (some "m1") none "A" "a@x" "one" 1715650000000 false,
     ContactMessage.mk (some "m2") none "B" "b@x" "two" 1715740000000 false,
     ContactMessage.mk (some "m3") none "C" "c@x" "three" 1715860000000 false]
    [] "2024-05-15" (by decide)).1 _

/-! ## C10: model-only pairs are read; mark-chat-read behaviour -/

/-- Scan invariant of `pairedChatLogs`: every flushed pair without a user
message was flushed with `read: true`, and any open `currentPair` always
holds a user message. -/
theorem pairScan_inv (logs : List ChatLog) (pairs : List ChatPair)
    (cur : Option PendingPair)
    (h1 : ∀ q ∈ pairs, q.userMsg = none → q.read = true)
    (h2 : ∀ p, cur = some p → p.userMsg.isSome) :
    (∀ q ∈ (logs.foldl (fun acc log => pairStep acc.1 acc.2 log) (pairs, cur)).1,
        q.userMsg = none → q.read = true) ∧
    (∀ p, (logs.foldl (fun acc log => pairStep acc.1 acc.2 log) (pairs, cur)).2 = some p →
        p.userMsg.isSome) := by
  induction logs generalizing pairs cur with
  | nil => exact ⟨h1, h2⟩
  | cons log rest ih =>
      simp only [List.foldl_cons]
      have happend : ∀ (x : ChatPair), x.userMsg.isSome →
          ∀ q ∈ pairs ++ [x], q.userMsg = none → q.read = true := by
        intro x hx q hq hnone
        rcases List.mem_append.mp hq with h | h
        · exact h1 q h hnone
        · simp only [List.mem_singleton] at h
          subst h
          rw [hnone] at hx
          cases hx
      have hread : ∀ (x : ChatPair), x.read = true →
          ∀ q ∈ pairs ++ [x], q.userMsg = none → q.read = true := by
        intro x hx q hq _
        rcases List.mem_append.mp hq with h | h
        · exact h1 q h (by assumption)
        · simp only [List.mem_singleton] at h
          subst h
          exact hx
      have hmain : (∀ q ∈ (pairStep pairs cur log).1, q.userMsg = none → q.read = true) ∧
          (∀ p, (pairStep pairs cur log).2 = some p → p.userMsg.isSome) := by
        rcases log with ⟨lid, lrole, ltext, lt, lread⟩
        cases lrole with
        | user =>
            rcases cur with _ | ⟨pu, pm⟩
            · exact ⟨h1, fun p hp => by
                simp only [pairStep] at hp
                injection hp with hp
                subst hp
                rfl⟩
            · rcases pu with _ | u
              · refine ⟨?_, ?_⟩
                · intro q hq hnone
                  rcases pm with _ | m <;>
                    simp only [pairStep] at hq <;> exact h1 q hq hnone
                · intro p hp
                  rcases pm with _ | m <;> simp only [pairStep] at hp <;>
                    (injection hp with hp; subst hp; rfl)
              · rcases pm with _ | m
                · refine ⟨?_, ?_⟩
                  · intro q hq hnone
                    simp only [pairStep] at hq
                    exact happend (userOnlyPair u) rfl q hq hnone
                  · intro p hp
                    simp only [pairStep] at hp
                    injection hp with hp
                    subst hp
                    rfl
                · refine ⟨?_, ?_⟩
                  · intro q hq hnone
                    simp only [pairStep] at hq
                    exact h1 q hq hnone
                  · intro p hp
                    simp only [pairStep] at hp
                    injection hp with hp
                    subst hp
                    rfl
        | model =>
            rcases cur with _ | ⟨pu, pm⟩
            · refine ⟨?_, ?_⟩
              · intro q hq hnone
                simp only [pairStep] at hq
                exact hread (modelOnlyPair ⟨lid, Role.model, ltext, lt, lread⟩) rfl q hq hnone
              · intro p hp
                simp only [pairStep] at hp
                cases hp
            · rcases pu with _ | u
              · refine ⟨?_, ?_⟩
                · intro q hq hnone
                  rcases pm with _ | m <;> simp only [pairStep] at hq <;>
                    exact hread (modelOnlyPair ⟨lid, Role.model, ltext, lt, lread⟩) rfl q hq hnone
                · intro p hp
                  rcases pm with _ | m <;> simp only [pairStep] at hp <;>
                    exact h2 p hp
              · rcases pm with _ | m
                · refine ⟨?_, ?_⟩
                  · intro q hq hnone
                    simp only [pairStep] at hq
                    exact happend (fullPair u ⟨lid, Role.model, ltext, lt, lread⟩) rfl q hq hnone
                  · intro p hp
                    simp only [pairStep] at hp
                    cases hp
                · refine ⟨?_, ?_⟩
                  · intro q hq hnone
                    simp only [pairStep] at hq
                    exact hread (modelOnlyPair ⟨lid, Role.model, ltext, lt, lread⟩) rfl q hq hnone
                  · intro p hp
                    simp only [pairStep] at hp
                    exact h2 p hp
      have := ih (pairStep pairs cur log).1 (pairStep pairs cur log).2 hmain.1 hmain.2
      simpa using this

/-- C10: in the aggregated chat feed every pair holding only a model message
is created with `read = true`; `handleMarkChatRead` is a no-op (no local
change, no remote call) on a pair that is already read or whose user message
lacks a truthy persisted `_id`, and otherwise flips the `read` flag of
exactly the chat-log entries carrying the paired user message's `_id` while
invoking the remote call with that id. -/
theorem chatPair_read_contract (now : Int) (logs : List ChatLog)
    (pair : ChatPair) (cl : List ChatLog) :
    (∀ q ∈ pairedChatLogs now logs, q.userMsg = none → q.read = true) ∧
    (pair.read = true → handleMarkChatRead pair cl = (cl, none)) ∧
    (pair.read = false → jsIdOr (pair.userMsg.bind ChatLog._id) = none →
        handleMarkChatRead pair cl = (cl, none)) ∧
    (∀ uid, pair.read = false → jsIdOr (pair.userMsg.bind ChatLog._id) = some uid →
        handleMarkChatRead pair cl =
          (cl.map fun l => if l._id = some uid then { l with read := true } else l,
           some uid)) := by
  refine ⟨?_, ?_, ?_, ?_⟩
  · intro q hq hnone
    have hinv := pairScan_inv (sortChatAsc logs) [] none (by simp) (by simp)
    unfold pairedChatLogs flushTrailing at hq
    rcases hacc : ((sortChatAsc logs).foldl
        (fun acc log => pairStep acc.1 acc.2 log) ([], none)).2 with _ | p
    · rw [hacc] at hq
      exact hinv.1 q hq hnone
    · rw [hacc] at hq
      rcases List.mem_append.mp hq with h | h
      · exact hinv.1 q h hnone
      · have hps : p.userMsg.isSome := hinv.2 p hacc
        simp only [List.mem_singleton] at h
        subst h
        simp only at hnone
        rw [hnone] at hps
        cases hps
  · intro hr
    simp [handleMarkChatRead, hr]
  · intro hr hid
    simp [handleMarkChatRead, hr, hid]
  · intro uid hr hid
    simp [handleMarkChatRead, hr, hid]

/-- Witness for C10: a lone model entry yields a read pair; marking an
already-read pair or an id-less pair changes nothing; marking an unread
pair with a persisted id flips exactly the matching log entry and issues
the remote call with that id. -/
theorem chatPair_read_contract_witness :
    (∀ q ∈ pairedChatLogs 0 [ChatLog.mk (some "m") Role.model "hi" 3 false],
        q.userMsg = none → q.read = true) ∧
    (handleMarkChatRead
        (ChatPair.mk (some "u") (some (ChatLog.mk (some "u") Role.user "q" 1 false))
          none 1 true)
        [ChatLog.mk (some "u") Role.user "q" 1 false]
      = ([ChatLog.mk (some "u") Role.user "q" 1 false], none)) ∧
    (handleMarkChatRead
        (ChatPair.mk none (some (ChatLog.mk none Role.user "q" 1 false)) none 1 false)
        [ChatLog.mk none Role.user "q" 1 false]
      = ([ChatLog.mk none Role.user "q" 1 false], none)) ∧
    (handleMarkChatRead
        (ChatPair.mk (some "u") (some (ChatLog.mk (some "u") Role.user "q" 1 false))
          none 1 false)
        [ChatLog.mk (some "u") Role.user "q" 1 false,
         ChatLog.mk (some "v") Role.user "q2" 2 false]
      = ([ChatLog.mk (some "u") Role.user "q" 1 true,
          ChatLog.mk (some "v") Role.user "q2" 2 false], some "u")) := by
  refine ⟨?_, ?_, ?_, ?_⟩
  · exact (chatPair_read_contract 0 [ChatLog.mk (some "m") Role.model "hi" 3 false]
      (ChatPair.mk none none none 0 false) []).1
  · exact (chatPair_read_contract 0 []
      (ChatPair.mk (some "u") (some (ChatLog.mk (some "u") Role.user "q" 1 false)) none 1 true)
      [ChatLog.mk (some "u") Role.user "q" 1 false]).2.1 rfl
  · exact (chatPair_read_contract 0 []
      (ChatPair.mk none (some (ChatLog.mk none Role.user "q" 1 false)) none 1 false)
      [ChatLog.mk none Role.user "q" 1 false]).2.2.1 rfl (by decide)
  · have h := (chatPair_read_contract 0 []
      (ChatPair.mk (some "u") (some (ChatLog.mk (some "u") Role.user "q" 1 false)) none 1 false)
      [ChatLog.mk (some "u") Role.user "q" 1 false,
       ChatLog.mk (some "v") Role.user "q2" 2 false]).2.2.2 "u" rfl (by decide)
    rw [h]
    decide
